import Mathlib

/-!
Shallow embedding of `src/app.py` (Project Aadi conversational agent).

The source is a small Streamlit app built on pandas:
* `load_data` parses a JSON array of objects into a `pandas.DataFrame` and
  sets the `UserID` column as the index (duplicates are retained by pandas).
* `find_user_id` searches `query.upper()` for the regex `AADI-\d+` and
  returns the first match.
* `get_user_data` runs `df.loc[user_id].to_dict()`, catching `KeyError`.
* the main block runs one chat turn: append the user message, resolve an
  identifier (falling back to the remembered `last_user_id`), look the
  record up, build a master prompt, call the Gemini API, and append the
  reply on success.

JSON values are embedded as `JValue` (numbers as `Int`; the float subtleties
of pandas dtype coercion are out of scope).  A pandas cell is `Option JValue`
with `none` standing for `NaN` (the fill value pandas uses for fields a
record lacks).  Python dict truthiness (`if user_data:`) and string
truthiness (`if response:`) are modelled explicitly.
-/

/-- A JSON value as produced by `json.load`. -/
inductive JValue where
  | null : JValue
  | b (x : Bool) : JValue
  | n (x : Int) : JValue
  | s (x : String) : JValue
  | arr (xs : List JValue) : JValue
  | obj (fs : List (String × JValue)) : JValue

/-- A pandas cell: `none` is `NaN` (missing field padding). -/
abbrev Cell := Option JValue

/-- One element of the JSON array: a parsed Python dict (keys unique). -/
abbrev Record := List (String × JValue)

/-- Key lookup in a parsed JSON object. -/
def rlookup (r : Record) (k : String) : Cell :=
  (r.find? (fun p => p.1 == k)).map (fun p => p.2)

/-- Column order of `pd.DataFrame(list_of_dicts)`: union of the records'
keys, in order of first appearance. -/
def dedupFirstAux (seen : List String) : List String → List String
  | [] => []
  | x :: xs =>
    if x ∈ seen then dedupFirstAux seen xs
    else x :: dedupFirstAux (x :: seen) xs

/-- All column names of `pd.DataFrame(recs)`. -/
def columnsOf (recs : List Record) : List String :=
  dedupFirstAux [] (recs.map (fun r => r.map Prod.fst)).flatten

/-- The DataFrame after `df.set_index('UserID', inplace=True)`:
data columns (the `UserID` column removed), the index (each row's
`UserID` cell; pandas keeps duplicate index labels), and the rows,
each aligned with `cols`. -/
structure DataFrame where
  cols : List String
  idx : List Cell
  rows : List (List Cell)

/-- `load_data` (src/app.py lines 17-31).  The file system is abstracted:
`none` stands for `FileNotFoundError` on `open`, `some recs` for the parsed
JSON array.  Returns `none` exactly when the code returns `None` (after
`st.error`): file not found, or no record carries a `UserID` field. -/
def load_data (contents : Option (List Record)) : Option DataFrame :=
  match contents with
  | none => none
  | some recs =>
    let allCols := columnsOf recs
    if "UserID" ∈ allCols then
      let cols := allCols.filter (fun c => c ≠ "UserID")
      some ⟨cols, recs.map (fun r => rlookup r "UserID"),
            recs.map (fun r => cols.map (fun c => rlookup r c))⟩
    else none

/-- A value inside the dict returned by `.to_dict()`: either a plain cell
(`Series.to_dict`, the unique-row case) or a nested label-keyed dict
(`DataFrame.to_dict`, the duplicate-index case). -/
inductive PyObj where
  | v (x : Cell) : PyObj
  | nested (m : List (String × Cell)) : PyObj

/-- Python dict insertion `d[k] = x`: overwrite in place if the key is
present, else append. -/
def pyDictUpdate (d : List (String × Cell)) (k : String) (x : Cell) :
    List (String × Cell) :=
  if d.any (fun p => p.1 == k) then
    d.map (fun p => if p.1 == k then (k, x) else p)
  else d ++ [(k, x)]

/-- Does this index cell equal the string label `uid`?  (`df.loc[uid]`
row selection.) -/
def cellIsLabel (c : Cell) (uid : String) : Bool :=
  match c with
  | some (JValue.s v) => v == uid
  | _ => false

/-- `get_user_data` (src/app.py lines 40-44): `df.loc[user_id].to_dict()`
with `KeyError` mapped to `None`.
* no row with that index label: `KeyError`, returns `none`;
* exactly one row: `.loc` yields a Series, `.to_dict()` is `{col: value}`
  over all data columns (`NaN` included);
* several rows (duplicate `UserID`): `.loc` yields a DataFrame,
  `.to_dict()` is `{col: {label: value}}`, built row by row so later
  duplicates overwrite earlier ones in each inner dict. -/
def get_user_data (df : DataFrame) (uid : String) :
    Option (List (String × PyObj)) :=
  let ms := (df.idx.zip df.rows).filter (fun p => cellIsLabel p.1 uid)
  match ms with
  | [] => none
  | [m] => some ((df.cols.zip m.2).map (fun p => (p.1, PyObj.v p.2)))
  | _ :: _ :: _ =>
    some (df.cols.mapIdx (fun j c =>
      (c, PyObj.nested
        (ms.foldl (fun acc m => pyDictUpdate acc uid (m.2.getD j none)) []))))

/-- What the spec calls "the exact record that was loaded for that key,
minus the UserID key": the record's own field-to-value mapping with the
`UserID` entry removed, each value a plain (non-`NaN`) cell. -/
def plainRecord (r : Record) : List (String × PyObj) :=
  (r.filter (fun p => p.1 ≠ "UserID")).map (fun p => (p.1, PyObj.v (some p.2)))




/-! ## Identifier extractor (`find_user_id`, src/app.py lines 34-38)

Python runs `re.search(r'AADI-\\d+', query.upper())` and returns
`match.group(0)`.  `str.upper` applies the Unicode uppercase mapping and
`\\d` matches any Unicode decimal digit (category Nd).  The model is
character-wise:

* `isPyDigit` is the full Unicode 14.0 Nd set, as a list of codepoint
  ranges; no Nd character is changed by uppercasing.
* `pyToUpper` maps the basic latin letters and U+0131 `ı` (which
  uppercases to `I`) and fixes every other character.  This is
  behavior-preserving for `find_user_id`: across all of Unicode, the only
  characters whose `str.upper()` image contains a character of the
  pattern alphabet (`A`, `D`, `I`, `-`, or an Nd digit) are `a`, `d`,
  `i`, `ı`, the multi-character expansions `ẚ` (U+1E9A, to `Aʾ`) and the
  ligatures `ﬁ`/`ﬃ` (to `FI`/`FFI`), and characters already in the
  alphabet, which uppercasing fixes; the expansions place `ʾ` after the
  `A` and `F` before the `I`, so they can never complete an `AADI-`
  match.

`re.search` returns the leftmost match, and the greedy `\\d+` takes the
maximal digit run there. -/

/-- The Unicode 14.0 decimal-digit (category Nd) codepoint ranges,
inclusive. -/
def ndRanges : List (Nat × Nat) :=
  [(48, 57), (1632, 1641), (1776, 1785), (1984, 1993),
   (2406, 2415), (2534, 2543), (2662, 2671), (2790, 2799),
   (2918, 2927), (3046, 3055), (3174, 3183), (3302, 3311),
   (3430, 3439), (3558, 3567), (3664, 3673), (3792, 3801),
   (3872, 3881), (4160, 4169), (4240, 4249), (6112, 6121),
   (6160, 6169), (6470, 6479), (6608, 6617), (6784, 6793),
   (6800, 6809), (6992, 7001), (7088, 7097), (7232, 7241),
   (7248, 7257), (42528, 42537), (43216, 43225), (43264, 43273),
   (43472, 43481), (43504, 43513), (43600, 43609), (44016, 44025),
   (65296, 65305), (66720, 66729), (68912, 68921), (69734, 69743),
   (69872, 69881), (69942, 69951), (70096, 70105), (70384, 70393),
   (70736, 70745), (70864, 70873), (71248, 71257), (71360, 71369),
   (71472, 71481), (71904, 71913), (72016, 72025), (72784, 72793),
   (73040, 73049), (73120, 73129), (92768, 92777), (92864, 92873),
   (93008, 93017), (120782, 120831), (123200, 123209), (123632, 123641),
   (125264, 125273), (130032, 130041)]

/-- The regex class `\\d` of Python 3 on str: any Unicode decimal digit. -/
def isPyDigit (c : Char) : Bool :=
  ndRanges.any (fun p => p.1 ≤ c.toNat ∧ c.toNat ≤ p.2)

/-- One character of `str.upper()` (see the section comment for the
modelling scope). -/
def pyToUpper (c : Char) : Char :=
  if 97 ≤ c.toNat ∧ c.toNat ≤ 122 then Char.ofNat (c.toNat - 32)
  else if c = 'ı' then 'I'
  else c

/-- `query.upper()`, character by character. -/
def pyUpper (s : List Char) : List Char := s.map pyToUpper

/-- The regex `AADI-\\d+` anchored at the start of `s`: if `s` begins with
the literal `AADI-` followed by at least one decimal digit, the (greedy)
match, else nothing. -/
def matchAt (s : List Char) : Option (List Char) :=
  match s with
  | c1 :: c2 :: c3 :: c4 :: c5 :: rest =>
    if c1 = 'A' ∧ c2 = 'A' ∧ c3 = 'D' ∧ c4 = 'I' ∧ c5 = '-' then
      let ds := rest.takeWhile isPyDigit
      if ds.isEmpty then none else some (c1 :: c2 :: c3 :: c4 :: c5 :: ds)
    else none
  | _ => none

/-- `re.search`: try the pattern at each position, left to right. -/
def reSearch : List Char → Option (List Char)
  | [] => none
  | c :: rest =>
    match matchAt (c :: rest) with
    | some m => some m
    | none => reSearch rest

/-- `find_user_id` (src/app.py lines 34-38). -/
def find_user_id (query : String) : Option String :=
  (reSearch (pyUpper query.toList)).map (fun l => String.mk l)

/-! Spec-side notions.  Two families:

* `ciToken` is the token notion of claim C3 as stated — literal `AADI-`
  "in any letter case" (each letter in its lower or upper case form)
  followed by ASCII digits;
* `uToken` is the corrected notion — characters whose Python uppercase
  is the literal `AADI-`, followed by Unicode decimal digits.  It
  differs from `ciToken` in admitting `ı` for the `I` and non-ASCII
  digits. -/

/-- Is `c` the letter `A`, in either case? -/
def isA (c : Char) : Bool := c == 'A' || c == 'a'

/-- Is `c` the letter `D`, in either case? -/
def isD (c : Char) : Bool := c == 'D' || c == 'd'

/-- Is `c` the letter `I`, in either case? -/
def isI (c : Char) : Bool := c == 'I' || c == 'i'

/-- Does `c` uppercase to `I`?  Besides `i` and `I` this holds of the
dotless `ı`. -/
def isIU (c : Char) : Bool := c == 'I' || c == 'i' || c == 'ı'

/-- A string of the shape literal `AADI-` (any letter case) followed by
one or more ASCII digits: the token of claim C3 as stated. -/
def ciToken (m : List Char) : Bool :=
  match m with
  | c1 :: c2 :: c3 :: c4 :: c5 :: ds =>
    isA c1 && isA c2 && isD c3 && isI c4 && (c5 == '-') &&
      (!ds.isEmpty) && ds.all Char.isDigit
  | _ => false

/-- The anchored match of the claim-as-stated token notion. -/
def ciMatchAt (s : List Char) : Option (List Char) :=
  match s with
  | c1 :: c2 :: c3 :: c4 :: c5 :: rest =>
    if isA c1 && isA c2 && isD c3 && isI c4 && (c5 == '-') then
      let ds := rest.takeWhile Char.isDigit
      if ds.isEmpty then none else some (c1 :: c2 :: c3 :: c4 :: c5 :: ds)
    else none
  | _ => none

/-- The left-to-right search for the claim-as-stated token notion. -/
def ciSearch : List Char → Option (List Char)
  | [] => none
  | c :: rest =>
    match ciMatchAt (c :: rest) with
    | some m => some m
    | none => ciSearch rest

/-- A string whose character-wise Python uppercase is literal `AADI-`
followed by one or more Unicode decimal digits: the token notion that
matches the code. -/
def uToken (m : List Char) : Bool :=
  match m with
  | c1 :: c2 :: c3 :: c4 :: c5 :: ds =>
    isA c1 && isA c2 && isD c3 && isIU c4 && (c5 == '-') &&
      (!ds.isEmpty) && ds.all isPyDigit
  | _ => false

/-- The anchored match of `uToken` on the original text. -/
def uMatchAt (s : List Char) : Option (List Char) :=
  match s with
  | c1 :: c2 :: c3 :: c4 :: c5 :: rest =>
    if isA c1 && isA c2 && isD c3 && isIU c4 && (c5 == '-') then
      let ds := rest.takeWhile isPyDigit
      if ds.isEmpty then none else some (c1 :: c2 :: c3 :: c4 :: c5 :: ds)
    else none
  | _ => none

/-- The left-to-right search for `uToken` on the original text. -/
def uSearch : List Char → Option (List Char)
  | [] => none
  | c :: rest =>
    match uMatchAt (c :: rest) with
    | some m => some m
    | none => uSearch rest

/-! ## Conversation session and the chat-turn logic (src/app.py lines 56-127) -/

/-- A chat message (`{"role": ..., "content": ...}`). -/
structure Message where
  role : String
  content : String
deriving DecidableEq

/-- The per-session mutable state: `st.session_state.messages` and
`st.session_state.last_user_id` (`none` models the key being absent). -/
structure SessionState where
  messages : List Message
  last_user_id : Option String
deriving DecidableEq

/-- The seeded assistant greeting (src/app.py line 65). -/
def greeting : String :=
  "Hello! How can I help you with your finances today? Please include a UserID (e.g., AADI-001) in your question."

/-- Session state at the start of a session. -/
def initialState : SessionState := ⟨[⟨"assistant", greeting⟩], none⟩

/-- The fixed guidance reply used when no identifier resolves
(src/app.py line 125). -/
def guidanceMsg : String :=
  "I can\x27t seem to find a UserID in your question. Please include a UserID (like AADI-001) so I can access the correct financial data."

/-- The `st.error` text for a failed record lookup (src/app.py line 123). -/
def recordNotFoundMsg (uid : String) : String :=
  "Data for UserID " ++ uid ++ " could not be found."

/-- The `st.error` text emitted inside `get_gemini_response` on an API
exception (src/app.py line 53); the exception detail is abstracted away. -/
def apiErrorMsg : String :=
  "An error occurred while communicating with the Gemini API"

/-- Minimal JSON string escaping, as `json.dumps` applies to keys and
string values. -/
def jsonEscape (s : String) : String :=
  String.mk (s.toList.flatMap (fun c =>
    if c = '\\' then ['\\', '\\']
    else if c = '"' then ['\\', '"']
    else if c = '\n' then ['\\', 'n']
    else [c]))

/-- Indentation produced by `json.dumps(..., indent=2)` at nesting
depth `lvl`. -/
def pad (lvl : Nat) : String := String.mk (List.replicate (2 * lvl) ' ')

mutual

/-- `json.dumps` of one JSON value at nesting depth `lvl`. -/
def dumpJV : Nat → JValue → String
  | _, .null => "null"
  | _, .b true => "true"
  | _, .b false => "false"
  | _, .n k => toString k
  | _, .s s => "\"" ++ jsonEscape s ++ "\""
  | _, .arr [] => "[]"
  | lvl, .arr (x :: xs) =>
    "[\n" ++ dumpArr (lvl + 1) (x :: xs) ++ "\n" ++ pad lvl ++ "]"
  | _, .obj [] => "\x7b\x7d"
  | lvl, .obj (f :: fs) =>
    "\x7b\n" ++ dumpObj (lvl + 1) (f :: fs) ++ "\n" ++ pad lvl ++ "\x7d"

/-- `json.dumps` of the items of a JSON array. -/
def dumpArr : Nat → List JValue → String
  | _, [] => ""
  | lvl, [x] => pad lvl ++ dumpJV lvl x
  | lvl, x :: y :: xs =>
    pad lvl ++ dumpJV lvl x ++ ",\n" ++ dumpArr lvl (y :: xs)

/-- `json.dumps` of the fields of a JSON object. -/
def dumpObj : Nat → List (String × JValue) → String
  | _, [] => ""
  | lvl, [(k, v)] => pad lvl ++ "\"" ++ jsonEscape k ++ "\": " ++ dumpJV lvl v
  | lvl, (k, v) :: g :: fs =>
    pad lvl ++ "\"" ++ jsonEscape k ++ "\": " ++ dumpJV lvl v ++ ",\n" ++
      dumpObj lvl (g :: fs)

end

/-- `json.dumps` of a pandas cell; `NaN` prints as `NaN`. -/
def dumpCell (lvl : Nat) : Cell → String
  | none => "NaN"
  | some v => dumpJV lvl v

/-- `json.dumps` of the fields of a label-to-cell dict. -/
def dumpCells : Nat → List (String × Cell) → String
  | _, [] => ""
  | lvl, [(k, v)] => pad lvl ++ "\"" ++ jsonEscape k ++ "\": " ++ dumpCell lvl v
  | lvl, (k, v) :: g :: fs =>
    pad lvl ++ "\"" ++ jsonEscape k ++ "\": " ++ dumpCell lvl v ++ ",\n" ++
      dumpCells lvl (g :: fs)

/-- `json.dumps` of one value of the `user_data` dict. -/
def dumpPy (lvl : Nat) : PyObj → String
  | .v c => dumpCell lvl c
  | .nested [] => "\x7b\x7d"
  | .nested (f :: fs) =>
    "\x7b\n" ++ dumpCells (lvl + 1) (f :: fs) ++ "\n" ++ pad lvl ++ "\x7d"

/-- `json.dumps` of the fields of the `user_data` dict. -/
def dumpUD : Nat → List (String × PyObj) → String
  | _, [] => ""
  | lvl, [(k, v)] => pad lvl ++ "\"" ++ jsonEscape k ++ "\": " ++ dumpPy lvl v
  | lvl, (k, v) :: g :: fs =>
    pad lvl ++ "\"" ++ jsonEscape k ++ "\": " ++ dumpPy lvl v ++ ",\n" ++
      dumpUD lvl (g :: fs)

/-- `json.dumps(user_data, indent=2)` (src/app.py line 110). -/
def json_dumps (ud : List (String × PyObj)) : String :=
  match ud with
  | [] => "\x7b\x7d"
  | f :: fs => "\x7b\n" ++ dumpUD 1 (f :: fs) ++ "\n\x7d"

/-- `"\n".join(f'role: content' for m in messages)` (src/app.py line 94). -/
def conversationHistory (msgs : List Message) : String :=
  String.intercalate "\n" (msgs.map (fun m => m.role ++ ": " ++ m.content))

/-- The master prompt (src/app.py lines 96-116); the leading indentation
of the Python triple-quoted literal is normalised away. -/
def masterPrompt (msgs : List Message) (uid : String)
    (ud : List (String × PyObj)) (question : String) : String :=
  "You are \x27Aadi\x27, an expert AI financial co-pilot. Your primary goal is to provide comprehensive, well-researched financial advice by analyzing the user\x27s complete financial data.\n\n" ++
  "**Your Task:**\n" ++
  "1.  Analyze the user\x27s latest question in the context of the entire conversation history.\n" ++
  "2.  Thoroughly examine ALL relevant sections of the provided JSON data (User data, Credit report, EPF, Net worth, and Transactions) to formulate your answer. Do not limit your analysis to just one section.\n" ++
  "3.  If the user\x27s question is ambitious or vague (e.g., \"How can I retire at 40?\"), first ask clarifying questions to understand their goals (e.g., \"That\x27s a great goal! To help you, could you tell me what kind of lifestyle you envision in retirement?\"). Then, wait for their response before providing a detailed plan.\n" ++
  "4.  Provide your answer in a clear, conversational, and helpful tone.\n\n" ++
  "**Conversation History:**\n" ++ conversationHistory msgs ++ "\n\n" ++
  "**Complete Financial Data for " ++ uid ++ ":**\n" ++
  "```json\n" ++ json_dumps ud ++ "\n```\n\n" ++
  "**User\x27s Latest Question:** \"" ++ question ++ "\"\n\n" ++
  "Please provide your expert response now. If the question is about retirement or a complex goal, ask a clarifying question first."

/-- Identifier resolution for one turn (src/app.py lines 82-85): the
identifier extracted from the prompt, or else the remembered one. -/
def resolveId (last : Option String) (p : String) : Option String :=
  match find_user_id p with
  | some u => some u
  | none => last

/-- Everything observable about one executed chat turn. -/
structure TurnOut where
  state : SessionState
  llmCalled : Bool
  errors : List String
  shown : List String
  crashed : Bool
deriving DecidableEq

/-- One chat turn (src/app.py lines 73-127).
`df` is `financial_df` (`none` when `load_data` failed), `llm` is the
Gemini call (`none` models an exception inside `generate_content`,
`some r` a reply text).  Records:
* `state` — the session state after the turn;
* `llmCalled` — whether `get_gemini_response` ran;
* `errors` — the `st.error` banners of the turn;
* `shown` — the `st.markdown` renderings inside the assistant block;
* `crashed` — an uncaught exception (`financial_df` is `None`, so
  `df.loc` raises `AttributeError`, which `get_user_data` does not catch).

Python truthiness: `if user_data:` is false for `None` and for an empty
dict; `if response:` is false for `None` and for the empty string. -/
def runTurn (df : Option DataFrame) (llm : String → Option String)
    (s : SessionState) (p : String) : TurnOut :=
  let msgs1 := s.messages ++ [⟨"user", p⟩]
  match resolveId s.last_user_id p with
  | some u =>
    match df with
    | none => ⟨⟨msgs1, some u⟩, false, [], [], true⟩
    | some d =>
      match get_user_data d u with
      | some data =>
        if data.isEmpty then
          ⟨⟨msgs1, some u⟩, false, [recordNotFoundMsg u], [], false⟩
        else
          match llm (masterPrompt msgs1 u data p) with
          | some r =>
            if r.isEmpty then ⟨⟨msgs1, some u⟩, true, [], [], false⟩
            else ⟨⟨msgs1 ++ [⟨"assistant", r⟩], some u⟩, true, [], [r], false⟩
          | none => ⟨⟨msgs1, some u⟩, true, [apiErrorMsg], [], false⟩
      | none => ⟨⟨msgs1, some u⟩, false, [recordNotFoundMsg u], [], false⟩
  | none =>
    ⟨⟨msgs1 ++ [⟨"assistant", guidanceMsg⟩], s.last_user_id⟩,
      false, [], [guidanceMsg], false⟩

/-! ## The `@st.cache_data` wrapper on `load_data` (src/app.py line 17) -/

/-- The memo table and a count of actual file reads. -/
structure CacheState where
  entries : List (String × Option DataFrame)
  reads : Nat

/-- Cache lookup by the argument (`file_path`) of the cached call. -/
def cacheFind (es : List (String × Option DataFrame)) (path : String) :
    Option (Option DataFrame) :=
  match es with
  | [] => none
  | (k, v) :: rest => if k = path then some v else cacheFind rest path

/-- `load_data` as called through `@st.cache_data`: on a cache hit the
stored result is returned and the file is not read; on a miss the file
is read (`fs path`), parsed, and the result (including `None`) stored. -/
def cachedLoadData (fs : String → Option (List Record)) (path : String)
    (c : CacheState) : (Option DataFrame) × CacheState :=
  match cacheFind c.entries path with
  | some v => (v, c)
  | none =>
    let v := load_data (fs path)
    (v, ⟨c.entries ++ [(path, v)], c.reads + 1⟩)

/-! Character-level facts about `pyToUpper` and `isPyDigit` on the
characters the pattern can touch. -/

theorem char_lower_range (c : Char) (h : 97 ≤ c.toNat ∧ c.toNat ≤ 122) :
    ∃ n, c = Char.ofNat n ∧ 97 ≤ n ∧ n ≤ 122 :=
  ⟨c.toNat, (Char.ofNat_toNat c).symm, h.1, h.2⟩

theorem pyToUpper_fix (c : Char) (h1 : ¬(97 ≤ c.toNat ∧ c.toNat ≤ 122))
    (h2 : c ≠ 'ı') : pyToUpper c = c := by
  unfold pyToUpper
  rw [if_neg h1, if_neg h2]

theorem pyToUpper_eq_A (c : Char) : pyToUpper c = 'A' ↔ isA c = true := by
  by_cases h : 97 ≤ c.toNat ∧ c.toNat ≤ 122
  · obtain ⟨n, rfl, h1, h2⟩ := char_lower_range c h
    interval_cases n <;> decide
  · by_cases hd : c = 'ı'
    · subst hd; decide
    · rw [pyToUpper_fix c h hd]
      constructor
      · rintro rfl; rfl
      · intro h'
        simp only [isA, Bool.or_eq_true, beq_iff_eq] at h'
        rcases h' with rfl | rfl
        · rfl
        · exact absurd (by decide) h

theorem pyToUpper_eq_D (c : Char) : pyToUpper c = 'D' ↔ isD c = true := by
  by_cases h : 97 ≤ c.toNat ∧ c.toNat ≤ 122
  · obtain ⟨n, rfl, h1, h2⟩ := char_lower_range c h
    interval_cases n <;> decide
  · by_cases hd : c = 'ı'
    · subst hd; decide
    · rw [pyToUpper_fix c h hd]
      constructor
      · rintro rfl; rfl
      · intro h'
        simp only [isD, Bool.or_eq_true, beq_iff_eq] at h'
        rcases h' with rfl | rfl
        · rfl
        · exact absurd (by decide) h

theorem pyToUpper_eq_I (c : Char) : pyToUpper c = 'I' ↔ isIU c = true := by
  by_cases h : 97 ≤ c.toNat ∧ c.toNat ≤ 122
  · obtain ⟨n, rfl, h1, h2⟩ := char_lower_range c h
    interval_cases n <;> decide
  · by_cases hd : c = 'ı'
    · subst hd; decide
    · rw [pyToUpper_fix c h hd]
      constructor
      · rintro rfl; rfl
      · intro h'
        simp only [isIU, Bool.or_eq_true, beq_iff_eq] at h'
        rcases h' with (rfl | rfl) | rfl
        · rfl
        · exact absurd (by decide) h
        · exact absurd rfl hd

theorem pyToUpper_eq_dash (c : Char) : pyToUpper c = '-' ↔ c = '-' := by
  by_cases h : 97 ≤ c.toNat ∧ c.toNat ≤ 122
  · obtain ⟨n, rfl, h1, h2⟩ := char_lower_range c h
    interval_cases n <;> decide
  · by_cases hd : c = 'ı'
    · subst hd; decide
    · rw [pyToUpper_fix c h hd]

theorem isPyDigit_pyToUpper (c : Char) :
    isPyDigit (pyToUpper c) = isPyDigit c := by
  by_cases h : 97 ≤ c.toNat ∧ c.toNat ≤ 122
  · obtain ⟨n, rfl, h1, h2⟩ := char_lower_range c h
    interval_cases n <;> decide
  · by_cases hd : c = 'ı'
    · subst hd; decide
    · rw [pyToUpper_fix c h hd]

theorem pyUpper_takeWhile_digit (l : List Char) :
    (pyUpper l).takeWhile isPyDigit = pyUpper (l.takeWhile isPyDigit) := by
  unfold pyUpper
  rw [List.takeWhile_map]
  congr 1
  congr 1
  funext c
  exact isPyDigit_pyToUpper c

theorem pyUpper_isEmpty (l : List Char) : (pyUpper l).isEmpty = l.isEmpty := by
  cases l <;> rfl

theorem matchAt_pyUpper (s : List Char) :
    matchAt (pyUpper s) = (uMatchAt s).map pyUpper := by
  match s with
  | [] => rfl
  | [c1] => rfl
  | [c1, c2] => rfl
  | [c1, c2, c3] => rfl
  | [c1, c2, c3, c4] => rfl
  | c1 :: c2 :: c3 :: c4 :: c5 :: rest =>
    by_cases hb : (isA c1 && isA c2 && isD c3 && isIU c4 && (c5 == '-')) = true
    · have hcomp := hb
      simp only [Bool.and_eq_true, beq_iff_eq] at hcomp
      obtain ⟨⟨⟨⟨h1, h2⟩, h3⟩, h4⟩, h5⟩ := hcomp
      subst h5
      show matchAt (pyToUpper c1 :: pyToUpper c2 :: pyToUpper c3 ::
        pyToUpper c4 :: pyToUpper '-' :: pyUpper rest) = _
      rw [(pyToUpper_eq_A c1).mpr h1, (pyToUpper_eq_A c2).mpr h2,
          (pyToUpper_eq_D c3).mpr h3, (pyToUpper_eq_I c4).mpr h4,
          (pyToUpper_eq_dash '-').mpr rfl]
      simp only [matchAt, uMatchAt]
      rw [if_pos (by simp), if_pos hb]
      rw [pyUpper_takeWhile_digit, pyUpper_isEmpty]
      by_cases he : (rest.takeWhile isPyDigit).isEmpty = true
      · rw [if_pos he, if_pos he]
        rfl
      · rw [if_neg he, if_neg he]
        simp only [Option.map_some']
        congr 1
        show _ = pyUpper (c1 :: c2 :: c3 :: c4 :: '-' :: rest.takeWhile isPyDigit)
        simp only [pyUpper, List.map_cons]
        rw [(pyToUpper_eq_A c1).mpr h1, (pyToUpper_eq_A c2).mpr h2,
            (pyToUpper_eq_D c3).mpr h3, (pyToUpper_eq_I c4).mpr h4,
            (pyToUpper_eq_dash '-').mpr rfl]
    · have hne : ¬(pyToUpper c1 = 'A' ∧ pyToUpper c2 = 'A' ∧
          pyToUpper c3 = 'D' ∧ pyToUpper c4 = 'I' ∧
          pyToUpper c5 = '-') := by
        intro hc
        apply hb
        simp only [Bool.and_eq_true, beq_iff_eq]
        exact ⟨⟨⟨⟨(pyToUpper_eq_A c1).mp hc.1, (pyToUpper_eq_A c2).mp hc.2.1⟩,
          (pyToUpper_eq_D c3).mp hc.2.2.1⟩, (pyToUpper_eq_I c4).mp hc.2.2.2.1⟩,
          (pyToUpper_eq_dash c5).mp hc.2.2.2.2⟩
      show matchAt (pyToUpper c1 :: pyToUpper c2 :: pyToUpper c3 ::
        pyToUpper c4 :: pyToUpper c5 :: pyUpper rest) = _
      simp only [matchAt, uMatchAt]
      rw [if_neg hne, if_neg (by simpa using hb)]
      rfl

theorem reSearch_pyUpper (q : List Char) :
    reSearch (pyUpper q) = (uSearch q).map pyUpper := by
  induction q with
  | nil => rfl
  | cons c rest ih =>
    show reSearch (pyUpper (c :: rest)) = _
    rw [show pyUpper (c :: rest) = pyToUpper c :: pyUpper rest from rfl]
    simp only [reSearch, uSearch]
    rw [show pyToUpper c :: pyUpper rest = pyUpper (c :: rest) from rfl,
        matchAt_pyUpper]
    cases h : uMatchAt (c :: rest) with
    | some m => simp
    | none => simpa using ih

theorem prefix_takeWhile_of_all (p : Char → Bool) :
    ∀ (x l : List Char), x <+: l → x.all p = true → x <+: l.takeWhile p := by
  intro x
  induction x with
  | nil => intro l _ _; exact List.nil_prefix
  | cons a x' ih =>
    intro l hp ha
    cases l with
    | nil => exact absurd hp (by simp)
    | cons b l' =>
      rw [List.cons_prefix_cons] at hp
      obtain ⟨rfl, hp'⟩ := hp
      simp only [List.all_cons, Bool.and_eq_true] at ha
      rw [List.takeWhile_cons_of_pos ha.1, List.cons_prefix_cons]
      exact ⟨rfl, ih l' hp' ha.2⟩

theorem ciToken_shape (m : List Char) (h : ciToken m = true) :
    ∃ d1 d2 d3 d4 e ds, m = d1 :: d2 :: d3 :: d4 :: '-' :: e :: ds ∧
      isA d1 = true ∧ isA d2 = true ∧ isD d3 = true ∧ isI d4 = true ∧
      (e :: ds).all Char.isDigit = true := by
  match m with
  | [] => exact absurd h (by simp [ciToken])
  | [c1] => exact absurd h (by simp [ciToken])
  | [c1, c2] => exact absurd h (by simp [ciToken])
  | [c1, c2, c3] => exact absurd h (by simp [ciToken])
  | [c1, c2, c3, c4] => exact absurd h (by simp [ciToken])
  | c1 :: c2 :: c3 :: c4 :: c5 :: ds =>
    simp only [ciToken, Bool.and_eq_true, beq_iff_eq] at h
    obtain ⟨⟨⟨⟨⟨⟨h1, h2⟩, h3⟩, h4⟩, h5⟩, h6⟩, h7⟩ := h
    subst h5
    cases ds with
    | nil => simp at h6
    | cons e ds' => exact ⟨c1, c2, c3, c4, e, ds', rfl, h1, h2, h3, h4, h7⟩

theorem uToken_shape (m : List Char) (h : uToken m = true) :
    ∃ d1 d2 d3 d4 e ds, m = d1 :: d2 :: d3 :: d4 :: '-' :: e :: ds ∧
      isA d1 = true ∧ isA d2 = true ∧ isD d3 = true ∧ isIU d4 = true ∧
      (e :: ds).all isPyDigit = true := by
  match m with
  | [] => exact absurd h (by simp [uToken])
  | [c1] => exact absurd h (by simp [uToken])
  | [c1, c2] => exact absurd h (by simp [uToken])
  | [c1, c2, c3] => exact absurd h (by simp [uToken])
  | [c1, c2, c3, c4] => exact absurd h (by simp [uToken])
  | c1 :: c2 :: c3 :: c4 :: c5 :: ds =>
    simp only [uToken, Bool.and_eq_true, beq_iff_eq] at h
    obtain ⟨⟨⟨⟨⟨⟨h1, h2⟩, h3⟩, h4⟩, h5⟩, h6⟩, h7⟩ := h
    subst h5
    cases ds with
    | nil => simp at h6
    | cons e ds' => exact ⟨c1, c2, c3, c4, e, ds', rfl, h1, h2, h3, h4, h7⟩

theorem uMatchAt_some (s m : List Char) (h : uMatchAt s = some m) :
    uToken m = true ∧ m <+: s ∧
      ∀ m2, uToken m2 = true → m2 <+: s → m2.length ≤ m.length := by
  match s with
  | [] => exact absurd h (by simp [uMatchAt])
  | [c1] => exact absurd h (by simp [uMatchAt])
  | [c1, c2] => exact absurd h (by simp [uMatchAt])
  | [c1, c2, c3] => exact absurd h (by simp [uMatchAt])
  | [c1, c2, c3, c4] => exact absurd h (by simp [uMatchAt])
  | c1 :: c2 :: c3 :: c4 :: c5 :: rest =>
    by_cases hb : (isA c1 && isA c2 && isD c3 && isIU c4 && (c5 == '-')) = true
    · simp only [uMatchAt] at h
      rw [if_pos hb] at h
      by_cases he : (rest.takeWhile isPyDigit).isEmpty = true
      · rw [if_pos he] at h
        exact absurd h (by simp)
      · rw [if_neg he] at h
        have hm : m = c1 :: c2 :: c3 :: c4 :: c5 ::
            rest.takeWhile isPyDigit := by
          exact (Option.some.injEq _ _ ▸ h).symm
        subst hm
        have hcomp := hb
        simp only [Bool.and_eq_true, beq_iff_eq] at hcomp
        obtain ⟨⟨⟨⟨h1, h2⟩, h3⟩, h4⟩, h5⟩ := hcomp
        refine ⟨?_, ?_, ?_⟩
        · simp [uToken, h1, h2, h3, h4, h5, he, List.all_takeWhile]
        · simp [List.cons_prefix_cons, List.takeWhile_prefix]
        · intro m2 ht2 hp2
          obtain ⟨d1, d2, d3, d4, e, ds2, rfl, g1, g2, g3, g4, gd⟩ :=
            uToken_shape m2 ht2
          simp only [List.cons_prefix_cons] at hp2
          obtain ⟨_, _, _, _, _, hp'⟩ := hp2
          have : (e :: ds2) <+: rest.takeWhile isPyDigit :=
            prefix_takeWhile_of_all isPyDigit (e :: ds2) rest hp' gd
          have hlen := this.length_le
          simp only [List.length_cons] at hlen ⊢
          omega
    · simp only [uMatchAt] at h
      rw [if_neg hb] at h
      exact absurd h (by simp)

theorem ciMatchAt_none_token (s : List Char) (h : ciMatchAt s = none)
    (m : List Char) (ht : ciToken m = true) : ¬ m <+: s := by
  intro hp
  obtain ⟨d1, d2, d3, d4, e, ds, rfl, h1, h2, h3, h4, hd⟩ := ciToken_shape m ht
  obtain ⟨t, rfl⟩ := hp
  simp only [List.cons_append] at h
  simp only [ciMatchAt] at h
  rw [if_pos (by simp [h1, h2, h3, h4])] at h
  simp only [List.all_cons, Bool.and_eq_true] at hd
  rw [List.takeWhile_cons_of_pos hd.1] at h
  simp at h

theorem uMatchAt_none_token (s : List Char) (h : uMatchAt s = none)
    (m : List Char) (ht : uToken m = true) : ¬ m <+: s := by
  intro hp
  obtain ⟨d1, d2, d3, d4, e, ds, rfl, h1, h2, h3, h4, hd⟩ := uToken_shape m ht
  obtain ⟨t, rfl⟩ := hp
  simp only [List.cons_append] at h
  simp only [uMatchAt] at h
  rw [if_pos (by simp [h1, h2, h3, h4])] at h
  simp only [List.all_cons, Bool.and_eq_true] at hd
  rw [List.takeWhile_cons_of_pos hd.1] at h
  simp at h

theorem ciSearch_none_all (q : List Char) (h : ciSearch q = none) :
    ∀ i, ciMatchAt (q.drop i) = none := by
  induction q with
  | nil => intro i; rw [List.drop_nil]; rfl
  | cons c rest ih =>
    rw [show ciSearch (c :: rest) = (match ciMatchAt (c :: rest) with
      | some m => some m | none => ciSearch rest) from rfl] at h
    cases hm : ciMatchAt (c :: rest) with
    | some m => rw [hm] at h; exact absurd h (by simp)
    | none =>
      rw [hm] at h
      simp only at h
      intro i
      match i with
      | 0 => exact hm
      | i + 1 => rw [List.drop_succ_cons]; exact ih h i

theorem uSearch_none_all (q : List Char) (h : uSearch q = none) :
    ∀ i, uMatchAt (q.drop i) = none := by
  induction q with
  | nil => intro i; rw [List.drop_nil]; rfl
  | cons c rest ih =>
    rw [show uSearch (c :: rest) = (match uMatchAt (c :: rest) with
      | some m => some m | none => uSearch rest) from rfl] at h
    cases hm : uMatchAt (c :: rest) with
    | some m => rw [hm] at h; exact absurd h (by simp)
    | none =>
      rw [hm] at h
      simp only at h
      intro i
      match i with
      | 0 => exact hm
      | i + 1 => rw [List.drop_succ_cons]; exact ih h i

theorem uSearch_some_first (q m : List Char) (h : uSearch q = some m) :
    ∃ i, uMatchAt (q.drop i) = some m ∧
      ∀ j, j < i → uMatchAt (q.drop j) = none := by
  induction q with
  | nil => exact absurd h (by simp [uSearch])
  | cons c rest ih =>
    rw [show uSearch (c :: rest) = (match uMatchAt (c :: rest) with
      | some m => some m | none => uSearch rest) from rfl] at h
    cases hm : uMatchAt (c :: rest) with
    | some m' =>
      rw [hm] at h
      have : m' = m := by simpa using h
      subst this
      exact ⟨0, hm, fun j hj => absurd hj (Nat.not_lt_zero j)⟩
    | none =>
      rw [hm] at h
      simp only at h
      obtain ⟨i, h1, h2⟩ := ih h
      refine ⟨i + 1, by rwa [List.drop_succ_cons], ?_⟩
      intro j hj
      match j with
      | 0 => exact hm
      | j + 1 => rw [List.drop_succ_cons]; exact h2 j (by omega)

/-- Counterexample to claim C3 as stated: the input `aadı-42` contains no
substring of the form literal `AADI-` in any letter case followed by
digits (`ı` is a different letter from `i`, not a case form of it), so
the claim requires `find_user_id` to return nothing — yet the program
returns `AADI-42`, because Python uppercases the dotless `ı` to `I`
before the regex runs. -/
theorem find_user_id_unicode_counterexample :
    find_user_id "aadı-42" = some "AADI-42" ∧
    (∀ i m, ciToken m = true → ¬ m <+: ("aadı-42").toList.drop i) := by
  refine ⟨rfl, ?_⟩
  intro i m ht
  exact ciMatchAt_none_token _ (ciSearch_none_all _ (by rfl) i) m ht

/-- Claim C3 (corrected): `find_user_id` returns the first (leftmost,
greedy) substring whose character-wise Python uppercase matches literal
`AADI-` followed by one or more Unicode decimal digits, uppercased; for
every input containing no such substring it returns nothing.  Beyond the
letter-case variants this admits the dotless `ı` in place of the `I` and
any Unicode decimal digit, which the stated claim omitted. -/
theorem find_user_id_unicode_spec (q : String) :
    (find_user_id q = none ↔
      ∀ i m, uToken m = true → ¬ m <+: q.toList.drop i)
    ∧ (∀ r, find_user_id q = some r →
        ∃ i m, uToken m = true ∧ m <+: q.toList.drop i ∧
          r.toList = pyUpper m ∧
          (∀ j m2, j < i → uToken m2 = true → ¬ m2 <+: q.toList.drop j) ∧
          (∀ m2, uToken m2 = true → m2 <+: q.toList.drop i →
            m2.length ≤ m.length)) := by
  have hnone : find_user_id q = none ↔ uSearch q.toList = none := by
    unfold find_user_id
    rw [Option.map_eq_none', reSearch_pyUpper, Option.map_eq_none']
  constructor
  · constructor
    · intro h i m ht
      exact uMatchAt_none_token _ (uSearch_none_all _ (hnone.mp h) i) m ht
    · intro h
      rw [hnone]
      cases hs : uSearch q.toList with
      | none => rfl
      | some m =>
        obtain ⟨i, h1, _⟩ := uSearch_some_first _ _ hs
        obtain ⟨ht, hp, _⟩ := uMatchAt_some _ _ h1
        exact absurd hp (h i m ht)
  · intro r hr
    unfold find_user_id at hr
    rw [Option.map_eq_some'] at hr
    obtain ⟨l, hl, rfl⟩ := hr
    rw [reSearch_pyUpper, Option.map_eq_some'] at hl
    obtain ⟨m, hm, rfl⟩ := hl
    obtain ⟨i, h1, h2⟩ := uSearch_some_first _ _ hm
    obtain ⟨ht, hp, hmax⟩ := uMatchAt_some _ _ h1
    refine ⟨i, m, ht, hp, rfl, ?_, hmax⟩
    intro j m2 hj ht2
    exact uMatchAt_none_token _ (h2 j hj) m2 ht2

theorem find_user_id_unicode_spec_witness :
    ∃ i m, uToken m = true ∧ m <+: ("ref aadı-٤٢ here").toList.drop i ∧
      ("AADI-٤٢" : String).toList = pyUpper m ∧
      (∀ j m2, j < i → uToken m2 = true →
        ¬ m2 <+: ("ref aadı-٤٢ here").toList.drop j) ∧
      (∀ m2, uToken m2 = true →
        m2 <+: ("ref aadı-٤٢ here").toList.drop i →
        m2.length ≤ m.length) :=
  (find_user_id_unicode_spec "ref aadı-٤٢ here").2 "AADI-٤٢" (by rfl)

/-! ## Turn-level lemmas and fixtures -/

theorem mem_dedupFirstAux (a : String) :
    ∀ (l seen : List String), a ∈ dedupFirstAux seen l ↔ a ∈ l ∧ a ∉ seen := by
  intro l
  induction l with
  | nil => intro seen; simp [dedupFirstAux]
  | cons x xs ih =>
    intro seen
    by_cases hx : x ∈ seen
    · rw [show dedupFirstAux seen (x :: xs) = dedupFirstAux seen xs from by
        simp [dedupFirstAux, hx]]
      rw [ih seen]
      simp only [List.mem_cons]
      constructor
      · exact fun h => ⟨Or.inr h.1, h.2⟩
      · rintro ⟨rfl | h1, h2⟩
        · exact absurd hx h2
        · exact ⟨h1, h2⟩
    · rw [show dedupFirstAux seen (x :: xs) = x :: dedupFirstAux (x :: seen) xs
        from by simp [dedupFirstAux, hx]]
      simp only [List.mem_cons, ih (x :: seen)]
      by_cases hax : a = x
      · subst hax
        simp [hx]
      · simp [hax]

theorem mem_columnsOf (recs : List Record) (k : String) :
    k ∈ columnsOf recs ↔ ∃ r ∈ recs, k ∈ r.map Prod.fst := by
  unfold columnsOf
  rw [mem_dedupFirstAux]
  simp [List.mem_flatten]

theorem rlookup_eq_none (r : Record) (k : String) :
    rlookup r k = none ↔ k ∉ r.map Prod.fst := by
  unfold rlookup
  rw [Option.map_eq_none', List.find?_eq_none]
  constructor
  · intro h hk
    rw [List.mem_map] at hk
    obtain ⟨p, hp, hpk⟩ := hk
    exact (h p hp) (by simp [hpk])
  · intro h x hx hxk
    exact h (List.mem_map.mpr ⟨x, hx, by simpa using hxk⟩)

/-- A one-record dataset fixture (spec §8, Scenario 1). -/
def sampleRecs : List Record :=
  [[("UserID", JValue.s "AADI-001"), ("netWorth", JValue.n 5000)]]

/-- The table `load_data` builds from `sampleRecs`. -/
def sampleDF : DataFrame :=
  ⟨["netWorth"], [some (JValue.s "AADI-001")], [[some (JValue.n 5000)]]⟩

/-- Claim C4: when dataset loading fails with FileNotFound (path does not
resolve) or SchemaError (no record contains a `UserID` field), the failure
is terminal for the session: `load_data` returns nothing, and with no
table every turn makes no LLM call and never shows dataset-derived
content (it either raises before the lookup or falls through to the
fixed guidance message). -/
theorem load_failure_terminal :
    (load_data none = none) ∧
    (∀ recs : List Record, (∀ r ∈ recs, rlookup r "UserID" = none) →
      load_data (some recs) = none) ∧
    (∀ (llm : String → Option String) (s : SessionState) (p : String),
      (runTurn none llm s p).llmCalled = false ∧
      ((runTurn none llm s p).shown = [] ∨
        (runTurn none llm s p).shown = [guidanceMsg]) ∧
      ((runTurn none llm s p).state.messages = s.messages ++ [⟨"user", p⟩] ∨
        (runTurn none llm s p).state.messages =
          s.messages ++ [⟨"user", p⟩, ⟨"assistant", guidanceMsg⟩])) := by
  refine ⟨rfl, ?_, ?_⟩
  · intro recs h
    simp only [load_data]
    rw [if_neg]
    intro hmem
    rw [mem_columnsOf] at hmem
    obtain ⟨r, hr, hk⟩ := hmem
    exact (rlookup_eq_none r "UserID").mp (h r hr) hk
  · intro llm s p
    cases hres : resolveId s.last_user_id p with
    | some u => refine ⟨?_, ?_, ?_⟩ <;> simp [runTurn, hres]
    | none => refine ⟨?_, ?_, ?_⟩ <;> simp [runTurn, hres]

theorem load_failure_terminal_witness :
    load_data (some [[("name", JValue.s "x")]]) = none ∧
    (runTurn none (fun _ => some "hi") initialState "AADI-001 balance?").llmCalled
      = false :=
  ⟨load_failure_terminal.2.1 [[("name", JValue.s "x")]]
      (by intro r hr; simp at hr; subst hr; rfl),
    (load_failure_terminal.2.2 (fun _ => some "hi") initialState
      "AADI-001 balance?").1⟩

/-- Claim C5: for every turn in which an identifier resolves but the
record lookup fails, the turn is aborted with the user-visible
record-not-found error, no LLM call is made, and no assistant message is
appended to the history (the user's message remains). -/
theorem turn_record_not_found (d : DataFrame) (llm : String → Option String)
    (s : SessionState) (p u : String)
    (hres : resolveId s.last_user_id p = some u)
    (hnf : get_user_data d u = none) :
    runTurn (some d) llm s p =
      ⟨⟨s.messages ++ [⟨"user", p⟩], some u⟩, false,
        [recordNotFoundMsg u], [], false⟩ := by
  simp [runTurn, hres, hnf]

theorem turn_record_not_found_witness :
    runTurn (some sampleDF) (fun _ => none) initialState
        "AADI-999 show balance" =
      ⟨⟨initialState.messages ++ [⟨"user", "AADI-999 show balance"⟩],
          some "AADI-999"⟩,
        false, [recordNotFoundMsg "AADI-999"], [], false⟩ :=
  turn_record_not_found sampleDF (fun _ => none) initialState
    "AADI-999 show balance" "AADI-999" (by rfl) (by rfl)

/-- Claim C7: for every turn whose text contains no identifier and with no
identifier remembered from a prior turn, the turn short-circuits to the
fixed guidance message and no LLM call is made. -/
theorem turn_no_id_guidance (df : Option DataFrame)
    (llm : String → Option String) (s : SessionState) (p : String)
    (h1 : find_user_id p = none) (h2 : s.last_user_id = none) :
    runTurn df llm s p =
      ⟨⟨s.messages ++ [⟨"user", p⟩, ⟨"assistant", guidanceMsg⟩], none⟩,
        false, [], [guidanceMsg], false⟩ := by
  have hres : resolveId (none : Option String) p = none := by
    simp [resolveId, h1]
  simp [runTurn, h2, hres]

theorem turn_no_id_guidance_witness :
    runTurn (some sampleDF) (fun _ => some "reply") initialState
        "how can I retire early?" =
      ⟨⟨initialState.messages ++ [⟨"user", "how can I retire early?"⟩,
          ⟨"assistant", guidanceMsg⟩], none⟩,
        false, [], [guidanceMsg], false⟩ :=
  turn_no_id_guidance (some sampleDF) (fun _ => some "reply") initialState
    "how can I retire early?" (by rfl) (by rfl)

/-- Claim C10: for every turn in which the LLM call succeeds but returns
the empty string, the reply is treated like a failure: nothing is shown,
no assistant message is appended, and no error is surfaced. -/
theorem turn_empty_reply_dropped (d : DataFrame) (s : SessionState)
    (p u : String) (ud : List (String × PyObj))
    (hres : resolveId s.last_user_id p = some u)
    (hud : get_user_data d u = some ud) (hne : ud.isEmpty = false) :
    runTurn (some d) (fun _ => some "") s p =
      ⟨⟨s.messages ++ [⟨"user", p⟩], some u⟩, true, [], [], false⟩ := by
  simp [runTurn, hres, hud, hne]
  decide

theorem turn_empty_reply_dropped_witness :
    runTurn (some sampleDF) (fun _ => some "") initialState
        "AADI-001 net worth?" =
      ⟨⟨initialState.messages ++ [⟨"user", "AADI-001 net worth?"⟩],
          some "AADI-001"⟩, true, [], [], false⟩ :=
  turn_empty_reply_dropped sampleDF initialState "AADI-001 net worth?"
    "AADI-001" [("netWorth", PyObj.v (some (JValue.n 5000)))]
    (by rfl) (by rfl) (by rfl)

/-- Claim C6: for every turn in which the LLM call fails, the error is
surfaced to the user, no assistant message is appended while the user's
message remains, and the session stays usable: a follow-up turn (here one
with no identifier of its own, recalling the remembered one) proceeds
normally and gets its reply appended. -/
theorem turn_generation_error (d : DataFrame) (llm : String → Option String)
    (s : SessionState) (p u : String) (ud : List (String × PyObj))
    (hres : resolveId s.last_user_id p = some u)
    (hud : get_user_data d u = some ud) (hne : ud.isEmpty = false)
    (hfail : ∀ q, llm q = none) :
    runTurn (some d) llm s p =
      ⟨⟨s.messages ++ [⟨"user", p⟩], some u⟩, true, [apiErrorMsg], [], false⟩ ∧
    ∀ (p2 r : String), find_user_id p2 = none → r.isEmpty = false →
      runTurn (some d) (fun _ => some r) (runTurn (some d) llm s p).state p2 =
        ⟨⟨s.messages ++ [⟨"user", p⟩, ⟨"user", p2⟩, ⟨"assistant", r⟩], some u⟩,
          true, [], [r], false⟩ := by
  have ht1 : runTurn (some d) llm s p =
      ⟨⟨s.messages ++ [⟨"user", p⟩], some u⟩, true, [apiErrorMsg], [],
        false⟩ := by
    simp [runTurn, hres, hud, hne, hfail]
  refine ⟨ht1, ?_⟩
  intro p2 r hp2 hr
  rw [ht1]
  have hres2 : resolveId (some u) p2 = some u := by simp [resolveId, hp2]
  simp [runTurn, hres2, hud, hne, hr]

theorem turn_generation_error_witness :
    runTurn (some sampleDF) (fun _ => none) initialState "AADI-001 status?" =
      ⟨⟨initialState.messages ++ [⟨"user", "AADI-001 status?"⟩],
          some "AADI-001"⟩, true, [apiErrorMsg], [], false⟩ ∧
    ∀ (p2 r : String), find_user_id p2 = none → r.isEmpty = false →
      runTurn (some sampleDF) (fun _ => some r)
          (runTurn (some sampleDF) (fun _ => none) initialState
            "AADI-001 status?").state p2 =
        ⟨⟨initialState.messages ++ [⟨"user", "AADI-001 status?"⟩,
            ⟨"user", p2⟩, ⟨"assistant", r⟩], some "AADI-001"⟩,
          true, [], [r], false⟩ :=
  turn_generation_error sampleDF (fun _ => none) initialState
    "AADI-001 status?" "AADI-001" [("netWorth", PyObj.v (some (JValue.n 5000)))]
    (by rfl) (by rfl) (by rfl) (fun _ => rfl)

/-- Claim C9: the remembered identifier is updated before the lookup runs,
so after a turn whose extracted identifier matches no record the
remembered identifier equals that unmatched identifier, and a following
turn with no identifier in its text retries the same nonexistent
identifier and fails again. -/
theorem stale_id_retried (d : DataFrame) (llm llm2 : String → Option String)
    (s : SessionState) (p1 p2 u : String)
    (h1 : find_user_id p1 = some u)
    (hnf : get_user_data d u = none)
    (h2 : find_user_id p2 = none) :
    (runTurn (some d) llm s p1).state.last_user_id = some u ∧
    runTurn (some d) llm2 (runTurn (some d) llm s p1).state p2 =
      ⟨⟨s.messages ++ [⟨"user", p1⟩, ⟨"user", p2⟩], some u⟩, false,
        [recordNotFoundMsg u], [], false⟩ := by
  have hres1 : resolveId s.last_user_id p1 = some u := by
    simp [resolveId, h1]
  have ht1 : runTurn (some d) llm s p1 =
      ⟨⟨s.messages ++ [⟨"user", p1⟩], some u⟩, false,
        [recordNotFoundMsg u], [], false⟩ := by
    simp [runTurn, hres1, hnf]
  refine ⟨by rw [ht1], ?_⟩
  rw [ht1]
  have hres2 : resolveId (some u) p2 = some u := by simp [resolveId, h2]
  simp [runTurn, hres2, hnf]

theorem stale_id_retried_witness :
    (runTurn (some sampleDF) (fun _ => none) initialState
      "AADI-999 show balance").state.last_user_id = some "AADI-999" ∧
    runTurn (some sampleDF) (fun _ => none)
        (runTurn (some sampleDF) (fun _ => none) initialState
          "AADI-999 show balance").state "and my balance?" =
      ⟨⟨initialState.messages ++ [⟨"user", "AADI-999 show balance"⟩,
          ⟨"user", "and my balance?"⟩], some "AADI-999"⟩, false,
        [recordNotFoundMsg "AADI-999"], [], false⟩ :=
  stale_id_retried sampleDF (fun _ => none) (fun _ => none) initialState
    "AADI-999 show balance" "and my balance?" "AADI-999"
    (by rfl) (by rfl) (by rfl)

theorem cacheFind_append_self (es : List (String × Option DataFrame))
    (path : String) (v : Option DataFrame) (h : cacheFind es path = none) :
    cacheFind (es ++ [(path, v)]) path = some v := by
  induction es with
  | nil => simp [cacheFind]
  | cons e rest ih =>
    obtain ⟨k, w⟩ := e
    by_cases hk : k = path
    · simp [cacheFind, hk] at h
    · simp only [cacheFind, List.cons_append, if_neg hk] at h ⊢
      exact ih h

/-- Claim C8: loading the same dataset path twice returns the cached
result unchanged and performs no second file read (the read counter does
not move and the cache state is untouched). -/
theorem cached_load_idempotent (fs : String → Option (List Record))
    (path : String) (c0 : CacheState) :
    (cachedLoadData fs path (cachedLoadData fs path c0).2).1 =
      (cachedLoadData fs path c0).1 ∧
    (cachedLoadData fs path (cachedLoadData fs path c0).2).2.reads =
      (cachedLoadData fs path c0).2.reads ∧
    (cachedLoadData fs path (cachedLoadData fs path c0).2).2 =
      (cachedLoadData fs path c0).2 := by
  cases h : cacheFind c0.entries path with
  | some v => simp [cachedLoadData, h]
  | none =>
    have h2 := cacheFind_append_self c0.entries path (load_data (fs path)) h
    simp [cachedLoadData, h, h2]

/-! ## Structure of `load_data` tables and `get_user_data` results -/

theorem load_data_some_inv (recs : List Record) (d : DataFrame)
    (h : load_data (some recs) = some d) :
    "UserID" ∈ columnsOf recs ∧
    d = ⟨(columnsOf recs).filter (fun c => c ≠ "UserID"),
         recs.map (fun r => rlookup r "UserID"),
         recs.map (fun r =>
           ((columnsOf recs).filter (fun c => c ≠ "UserID")).map
             (fun c => rlookup r c))⟩ := by
  simp only [load_data] at h
  by_cases hc : "UserID" ∈ columnsOf recs
  · rw [if_pos hc] at h
    exact ⟨hc, (Option.some.injEq _ _ ▸ h).symm⟩
  · rw [if_neg hc] at h
    exact absurd h (by simp)

theorem selected_rows (recs : List Record) (uid : String)
    (cols : List String) :
    ((recs.map (fun r => rlookup r "UserID")).zip
        (recs.map (fun r => cols.map (fun c => rlookup r c)))).filter
      (fun p => cellIsLabel p.1 uid) =
    (recs.filter (fun x => cellIsLabel (rlookup x "UserID") uid)).map
      (fun r => (rlookup r "UserID", cols.map (fun c => rlookup r c))) := by
  rw [List.zip_map', List.filter_map]
  rfl

theorem zip_self_map (cols : List String) (g : String → Cell) :
    cols.zip (cols.map g) = cols.map (fun c => (c, g c)) := by
  have h := List.zip_map' id g cols
  simpa using h

/-- Claim C1 (corrected): for a UserID carried by exactly one record,
`get_user_data` returns that record's row over all data columns of the
dataset — its own values, with `NaN` (`none`) filled in for columns the
record lacks; this equals the exact loaded record minus the `UserID` key
only when the record carries every column.  For a UserID carried by no
record, it returns `none` (NotFound). -/
theorem lookup_returns_loaded_row :
    (∀ (recs : List Record) (uid : String) (r : Record) (d : DataFrame),
      load_data (some recs) = some d →
      recs.filter (fun x => cellIsLabel (rlookup x "UserID") uid) = [r] →
      get_user_data d uid =
        some (d.cols.map (fun c => (c, PyObj.v (rlookup r c))))) ∧
    (∀ (recs : List Record) (uid : String) (d : DataFrame),
      load_data (some recs) = some d →
      recs.filter (fun x => cellIsLabel (rlookup x "UserID") uid) = [] →
      get_user_data d uid = none) := by
  constructor
  · intro recs uid r d hld hone
    obtain ⟨hc, rfl⟩ := load_data_some_inv recs d hld
    simp only [get_user_data]
    rw [selected_rows recs uid ((columnsOf recs).filter (fun c => c ≠ "UserID")),
        hone]
    simp only [List.map_cons, List.map_nil]
    rw [zip_self_map]
    simp [List.map_map]
  · intro recs uid d hld hnone
    obtain ⟨hc, rfl⟩ := load_data_some_inv recs d hld
    simp only [get_user_data]
    rw [selected_rows recs uid ((columnsOf recs).filter (fun c => c ≠ "UserID")),
        hnone]
    rfl

theorem pyDictUpdate_nil (uid : String) (y : Cell) :
    pyDictUpdate [] uid y = [(uid, y)] := by
  simp [pyDictUpdate]

theorem pyDictUpdate_single (uid : String) (x y : Cell) :
    pyDictUpdate [(uid, x)] uid y = [(uid, y)] := by
  simp [pyDictUpdate]

theorem foldl_update_from_single {α : Type} (uid : String) (f : α → Cell) :
    ∀ (ms : List α) (x : Cell),
      ms.foldl (fun acc m => pyDictUpdate acc uid (f m)) [(uid, x)] =
        [(uid, ms.foldl (fun _ m => f m) x)] := by
  intro ms
  induction ms with
  | nil => intro x; rfl
  | cons m ms ih =>
    intro x
    rw [List.foldl_cons, pyDictUpdate_single, List.foldl_cons]
    exact ih (f m)

theorem foldl_const_lastD {α : Type} (f : α → Cell) :
    ∀ (ms : List α) (m0 : α),
      ms.foldl (fun _ m => f m) (f m0) = f (ms.getLastD m0) := by
  intro ms
  induction ms with
  | nil => intro m0; rfl
  | cons m1 ms ih =>
    intro m0
    rw [List.foldl_cons, List.getLastD_cons]
    exact ih m1

theorem foldl_update_full {α : Type} (uid : String) (f : α → Cell)
    (m0 : α) (ms : List α) :
    (m0 :: ms).foldl (fun acc m => pyDictUpdate acc uid (f m)) [] =
      [(uid, f (ms.getLastD m0))] := by
  rw [List.foldl_cons, pyDictUpdate_nil, foldl_update_from_single,
      foldl_const_lastD]

theorem getLastD_map {α β : Type} (g : α → β) :
    ∀ (l : List α) (a : α), (l.map g).getLastD (g a) = g (l.getLastD a) := by
  intro l
  induction l with
  | nil => intro a; rfl
  | cons x l ih =>
    intro a
    rw [List.map_cons, List.getLastD_cons, List.getLastD_cons]
    exact ih x

theorem mapIdx_getD {β ε : Type} (G : β → Cell → ε) (d : Cell) :
    ∀ (l : List β) (zs : List Cell), l.length = zs.length →
      (l.mapIdx (fun j c => G c (zs.getD j d))) =
        (l.zip zs).map (fun p => G p.1 p.2) := by
  intro l
  induction l with
  | nil => intro zs h; rfl
  | cons x l ih =>
    intro zs h
    cases zs with
    | nil => simp at h
    | cons z zs =>
      rw [List.mapIdx_cons]
      simp only [List.getD_cons_zero, List.getD_cons_succ]
      rw [List.zip_cons_cons, List.map_cons]
      congr 1
      exact ih zs (by simpa using h)

theorem mapIdx_nested_fold (uid : String) (cols : List String)
    (w : Record → List Cell) (r1 r2 : Record) (rs : List Record)
    (hw : ∀ r, w r = cols.map (fun c => rlookup r c)) :
    cols.mapIdx (fun j c => (c, PyObj.nested
      (((rlookup r1 "UserID", w r1) :: (rlookup r2 "UserID", w r2) ::
        rs.map (fun r => (rlookup r "UserID", w r))).foldl
        (fun acc m => pyDictUpdate acc uid (m.2.getD j none)) []))) =
    cols.map (fun c =>
      (c, PyObj.nested [(uid, rlookup ((r2 :: rs).getLastD r1) c)])) := by
  have key : ∀ j : Nat,
      (((rlookup r1 "UserID", w r1) :: (rlookup r2 "UserID", w r2) ::
        rs.map (fun r => (rlookup r "UserID", w r))).foldl
        (fun acc m => pyDictUpdate acc uid (m.2.getD j none)) []) =
      [(uid, (w ((r2 :: rs).getLastD r1)).getD j none)] := by
    intro j
    rw [show ((rlookup r2 "UserID", w r2) ::
        rs.map (fun r => (rlookup r "UserID", w r))) =
        (r2 :: rs).map (fun r => (rlookup r "UserID", w r)) from rfl]
    rw [foldl_update_full uid (fun m : Cell × List Cell => m.2.getD j none)]
    rw [getLastD_map (fun r => (rlookup r "UserID", w r)) (r2 :: rs) r1]
  have hfun :
      (fun (j : Nat) (c : String) => (c, PyObj.nested
        (((rlookup r1 "UserID", w r1) :: (rlookup r2 "UserID", w r2) ::
          rs.map (fun r => (rlookup r "UserID", w r))).foldl
          (fun acc m => pyDictUpdate acc uid (m.2.getD j none)) []))) =
      (fun (j : Nat) (c : String) =>
        (c, PyObj.nested [(uid, (w ((r2 :: rs).getLastD r1)).getD j none)])) :=
    funext fun j => funext fun c => by rw [key j]
  rw [hfun, hw]
  rw [mapIdx_getD (fun c z => (c, PyObj.nested [(uid, z)])) none cols
    (cols.map (fun c => rlookup ((r2 :: rs).getLastD r1) c))
    (by rw [List.length_map])]
  rw [zip_self_map, List.map_map]
  rfl

/-- Claim C2 (corrected): on duplicate UserIDs the table retains every
duplicate row under that key (no record is dropped at load time), and
lookup of the key does not return the last record itself: it returns, for
each data column, a one-entry nested mapping from the UserID to that
column\x27s value in the last duplicate record — last-write-wins applies to
the returned values only, one nesting level down. -/
theorem duplicate_ids_nested_lookup :
    ∀ (recs : List Record) (uid : String) (r1 r2 : Record)
      (rs : List Record) (d : DataFrame),
      load_data (some recs) = some d →
      recs.filter (fun x => cellIsLabel (rlookup x "UserID") uid) =
        r1 :: r2 :: rs →
      d.idx.length = recs.length ∧
      get_user_data d uid =
        some (d.cols.map (fun c =>
          (c, PyObj.nested [(uid, rlookup ((r2 :: rs).getLastD r1) c)]))) := by
  intro recs uid r1 r2 rs d hld hdup
  obtain ⟨hc, rfl⟩ := load_data_some_inv recs d hld
  constructor
  · simp
  simp only [get_user_data]
  rw [selected_rows recs uid ((columnsOf recs).filter (fun c => c ≠ "UserID")),
      hdup]
  simp only [List.map_cons]
  congr 1
  exact mapIdx_nested_fold uid ((columnsOf recs).filter (fun c => c ≠ "UserID"))
    (fun r => ((columnsOf recs).filter (fun c => c ≠ "UserID")).map
      (fun c => rlookup r c)) r1 r2 rs (fun r => rfl)

/-- First record of the heterogeneous two-record dataset used against
claim C1. -/
def c1rec1 : Record := [("UserID", JValue.s "AADI-001"), ("x", JValue.n 1)]

/-- Second record of that dataset; it has field `y` instead of `x`. -/
def c1rec2 : Record := [("UserID", JValue.s "AADI-002"), ("y", JValue.n 2)]

/-- A dataset whose records carry different field sets. -/
def c1recs : List Record := [c1rec1, c1rec2]

/-- The table `load_data` builds from `c1recs`. -/
def c1df : DataFrame :=
  ⟨["x", "y"], [some (JValue.s "AADI-001"), some (JValue.s "AADI-002")],
   [[some (JValue.n 1), none], [none, some (JValue.n 2)]]⟩

/-- Counterexample to claim C1 as stated: in a dataset whose records have
different field sets, lookup does not return the exact loaded record minus
the UserID key — pandas pads the row with `NaN` for every column the
record lacks. -/
theorem lookup_not_exact_record :
    load_data (some c1recs) = some c1df ∧
    get_user_data c1df "AADI-001" =
      some [("x", PyObj.v (some (JValue.n 1))), ("y", PyObj.v none)] ∧
    get_user_data c1df "AADI-001" ≠ some (plainRecord c1rec1) := by
  refine ⟨rfl, rfl, fun h => ?_⟩
  have h2 := congrArg (fun o => ((Option.map List.length o).getD 0)) h
  exact (by decide : ¬ ((2 : Nat) = 1)) h2

theorem lookup_returns_loaded_row_witness :
    get_user_data c1df "AADI-001" =
      some (c1df.cols.map (fun c => (c, PyObj.v (rlookup c1rec1 c)))) ∧
    get_user_data c1df "AADI-404" = none :=
  ⟨lookup_returns_loaded_row.1 c1recs "AADI-001" c1rec1 c1df rfl rfl,
   lookup_returns_loaded_row.2 c1recs "AADI-404" c1df rfl rfl⟩

/-- First of two records sharing the UserID `AADI-001`. -/
def c2rec1 : Record :=
  [("UserID", JValue.s "AADI-001"), ("Balance", JValue.n 100)]

/-- Second (last) record with the same UserID. -/
def c2rec2 : Record :=
  [("UserID", JValue.s "AADI-001"), ("Balance", JValue.n 200)]

/-- A dataset with a duplicated UserID. -/
def c2recs : List Record := [c2rec1, c2rec2]

/-- The table `load_data` builds from `c2recs`: both rows are kept. -/
def c2df : DataFrame :=
  ⟨["Balance"], [some (JValue.s "AADI-001"), some (JValue.s "AADI-001")],
   [[some (JValue.n 100)], [some (JValue.n 200)]]⟩

/-- Counterexample to claim C2 as stated: with a duplicated UserID the
table keeps both rows, and lookup returns a nested column-to-label dict,
not the last record itself. -/
theorem duplicate_key_not_flat :
    load_data (some c2recs) = some c2df ∧
    c2df.idx.length = 2 ∧
    get_user_data c2df "AADI-001" =
      some [("Balance", PyObj.nested [("AADI-001", some (JValue.n 200))])] ∧
    get_user_data c2df "AADI-001" ≠ some (plainRecord c2rec2) := by
  refine ⟨rfl, rfl, rfl, fun h => ?_⟩
  have h2 := congrArg (fun o =>
    match o with
    | some ((_, PyObj.nested _) :: _) => true
    | _ => false) h
  exact (by decide : ¬ (true = false)) h2

theorem duplicate_ids_nested_lookup_witness :
    c2df.idx.length = c2recs.length ∧
    get_user_data c2df "AADI-001" =
      some (c2df.cols.map (fun c =>
        (c, PyObj.nested [("AADI-001", rlookup ([c2rec2].getLastD c2rec1) c)]))) :=
  duplicate_ids_nested_lookup c2recs "AADI-001" c2rec1 c2rec2 [] c2df rfl rfl
